import Mathlib

/-!
Verification development for the Harvey analytics simulation
(`src/python/analysis/model_results_simulation.py` and companions).

The Python source is embedded shallowly: dataframes become lists of typed
records, pandas group-bys become list grouping by a (possibly null) key,
`Series.mean` with skipped missing values becomes an `Option`-valued mean,
and fallible dataframe operations (`.iloc[0]` on an empty selection,
`groupby` on a column that does not exist) return `Except`.

Missing scalar values (pandas `NaN` / Python `None`) are modelled with
`Option`; where the distinction between Python `None` and float `NaN`
matters (the satisfaction categorisation), an explicit `PyFloat` type with
a `nan` constructor is used, and Python's comparison semantics
(`nan >= c` is `False`) is reproduced by `pyGe`.
-/

namespace Harvey

/-- A point in time. `day` is the day number used for date equality and
day differences; `week` and `month` carry the calendar projections that
pandas derives via `to_period` (calendar arithmetic itself is library
behaviour, external to this repository, so the projections are carried
as data). -/
structure Timestamp where
  day : ℤ
  week : String
  month : String
deriving DecidableEq, Repr

/-- A record of the Users collection. -/
structure User where
  user_id : String
  user_created_date : Timestamp
  user_title : Option String
deriving DecidableEq, Repr

/-- A record of the Firms collection. -/
structure Firm where
  firm_id : String
  firm_created_date : Timestamp
  firm_size : ℚ
  arr_in_thousands : ℚ
deriving DecidableEq, Repr

/-- A record of the Events collection. `num_docs` and `feedback_score`
may be missing (NaN in the source data). -/
structure Event where
  user_id : String
  firm_id : String
  event_type : Option String
  event_created_at : Timestamp
  num_docs : Option ℚ
  feedback_score : Option ℚ
deriving DecidableEq, Repr

/-- Result of `Series.mean()` in Python: a float or `NaN`. -/
inductive PyFloat where
  | nan : PyFloat
  | val : ℚ → PyFloat
deriving DecidableEq, Repr

/-- Python `x >= c` for a float that may be `NaN`: comparisons with `NaN`
are `False`. -/
def pyGe (x : PyFloat) (c : ℚ) : Bool :=
  match x with
  | .nan => false
  | .val a => decide (a ≥ c)

/-- Python `x >= c` where `x` is a possibly missing series entry
(pandas `NaN` compares `False`). -/
def pyGeOpt (x : Option ℚ) (c : ℚ) : Bool :=
  match x with
  | none => false
  | some a => decide (a ≥ c)

/-- Model of `Series.mean()` with pandas default `skipna=True`: missing entries are
ignored; the mean of an all-missing series is `NaN`. -/
def seriesMean (xs : List (Option ℚ)) : PyFloat :=
  let vs := xs.filterMap id
  if vs.length = 0 then .nan else .val (vs.sum / vs.length)

/-- Model of `Series.mean()` at aggregation sites where only presence matters:
`none` stands for `NaN` (all entries missing). -/
def meanOpt (xs : List (Option ℚ)) : Option ℚ :=
  let vs := xs.filterMap id
  if vs.length = 0 then none else some (vs.sum / vs.length)

/-- Rounding half to even, the mode used by `numpy`/`pandas.round`. -/
def roundHalfEven (q : ℚ) : ℤ :=
  if q - ⌊q⌋ < 1/2 then ⌊q⌋
  else if q - ⌊q⌋ > 1/2 then ⌊q⌋ + 1
  else if 2 ∣ ⌊q⌋ then ⌊q⌋ else ⌊q⌋ + 1

/-- Model of `Series.round(2)` on an exact value. -/
def round2 (q : ℚ) : ℚ :=
  (roundHalfEven (q * 100) : ℚ) / 100

/-- Lookup by user id: `users_df[users_df['user_id'] == uid]` keeps
matching rows in order; `.iloc[0]` then takes the first, so a successful
lookup is the first match. -/
def findUser (users : List User) (uid : String) : Option User :=
  users.find? (fun u => u.user_id = uid)

/-- First firm record matching a firm id. -/
def findFirm (firms : List Firm) (fid : String) : Option Firm :=
  firms.find? (fun f => f.firm_id = fid)

/-! ### Threshold classifications (Derivation Engine)

Each function transcribes one `if`/`elif` ladder of the source. -/

/-- From `simulate_user_engagement`, lines 50-59: engagement level from the
month's query count and distinct active days. -/
def engagement_level (query_count active_days : ℕ) : String :=
  if query_count ≥ 50 ∧ active_days ≥ 15 then "Power User"
  else if query_count ≥ 20 ∧ active_days ≥ 8 then "Active User"
  else if query_count ≥ 5 ∧ active_days ≥ 3 then "Regular User"
  else if query_count ≥ 1 then "Occasional User"
  else "Inactive"

/-- From `simulate_event_performance_metrics`, lines 451-458: user segment from
tenure in days at the time of the event (negative tenure is classified by
the same ladder). -/
def user_segment (tenure_days : ℤ) : String :=
  if tenure_days ≤ 7 then "New User"
  else if tenure_days ≤ 30 then "Recent User"
  else if tenure_days ≤ 90 then "Established User"
  else "Long-term User"

/-- From `simulate_user_acquisition_base`, lines 326-333: firm size bucket. -/
def firm_size_category_of (firm_size : ℚ) : String :=
  if firm_size ≥ 500 then "Enterprise"
  else if firm_size ≥ 200 then "Large"
  else if firm_size ≥ 100 then "Medium"
  else "Small"

/-- From `simulate_user_acquisition_base`, lines 335-342: ARR bucket. -/
def arr_category_of (arr_in_thousands : ℚ) : String :=
  if arr_in_thousands ≥ 500 then "High Value"
  else if arr_in_thousands ≥ 200 then "Medium Value"
  else if arr_in_thousands ≥ 100 then "Low Value"
  else "Minimal Value"

/-- From `simulate_user_acquisition_base`, lines 345-355: activation bucket. -/
def activation_category_of (is_activated : ℕ) (days : Option ℤ) : String :=
  match days with
  | some d =>
    if is_activated = 1 then
      if d ≤ 1 then "Immediate Activation"
      else if d ≤ 7 then "Quick Activation"
      else if d ≤ 30 then "Standard Activation"
      else "Delayed Activation"
    else "Not Activated"
  | none => "Not Activated"

/-- From `simulate_user_acquisition_base`, lines 357-368: the average feedback
of the user's events; Python `None` when the user has no events, `NaN`
when there are events but every feedback score is missing. -/
def avgSatisfaction (user_events : List Event) : Option PyFloat :=
  if user_events.length > 0 then some (seriesMean (user_events.map (·.feedback_score))) else none

/-- From `simulate_user_acquisition_base`, lines 358-368: satisfaction bucket
from the average feedback. The source tests `avg_satisfaction is not
None` and then compares with `>=`, so a `NaN` average (events present,
all scores missing) falls through every comparison. -/
def satisfaction_category (avg : Option PyFloat) : String :=
  match avg with
  | some a =>
    if pyGe a 4.5 then "High Satisfaction"
    else if pyGe a 4.0 then "Good Satisfaction"
    else if pyGe a 3.5 then "Fair Satisfaction"
    else "Low Satisfaction"
  | none => "No Feedback"

/-- From `simulate_event_performance_metrics`, lines 589-591: monthly
satisfaction performance bucket (a `NaN` average falls through to the
last bucket). -/
def satisfaction_performance_of (avg : Option ℚ) : String :=
  if pyGeOpt avg 4.5 then "Excellent"
  else if pyGeOpt avg 4.0 then "Good"
  else if pyGeOpt avg 3.5 then "Fair"
  else "Needs Improvement"

/-- From `simulate_event_performance_metrics`, lines 593-595: monthly volume
performance bucket. -/
def volume_performance_of (total_events : ℕ) : String :=
  if total_events ≥ 1000 then "High Volume"
  else if total_events ≥ 500 then "Medium Volume"
  else if total_events ≥ 100 then "Low Volume"
  else "Minimal Volume"

/-! ### Effectful list traversal

The Python `for` loops build a list row by row and abort with an
exception as soon as one iteration faults; `mapE` is that loop. -/

/-- Sequential effectful map over a list (the Python accumulate loop). -/
def mapE {α β : Type} (f : α → Except String β) : List α → Except String (List β)
  | [] => .ok []
  | a :: l =>
    match f a with
    | .error e => .error e
    | .ok b =>
      match mapE f l with
      | .error e => .error e
      | .ok bs => .ok (b :: bs)

/-! ### The per-event base table (`simulate_event_performance_metrics`, lines 432-481) -/

/-- One row of `event_performance_df`: the event joined with its user and
firm records plus the derived time and classification columns. -/
structure PerfRow where
  event_id : ℕ
  event_type : Option String
  event_created_at : Timestamp
  num_docs : Option ℚ
  feedback_score : Option ℚ
  user_id : String
  user_title : Option String
  user_created_date : Timestamp
  firm_id : String
  firm_size : ℚ
  arr_in_thousands : ℚ
  event_month : String
  event_week : String
  event_date : ℤ
  user_tenure_days : ℤ
  high_satisfaction_event : ℕ
  high_volume_event : ℕ
  user_segment : String
deriving DecidableEq, Repr

/-- Lines 434-479 for a single event: look the user and the firm up
(`.iloc[0]` on the filtered frame raises `IndexError` when the reference
has no match) and compute the derived columns. -/
def mkPerfRow (users : List User) (firms : List Firm) (idx : ℕ) (e : Event) :
    Except String PerfRow :=
  match findUser users e.user_id with
  | none => .error "IndexError: user_id has no matching user record"
  | some u =>
    match findFirm firms e.firm_id with
    | none => .error "IndexError: firm_id has no matching firm record"
    | some f =>
      let tenure := e.event_created_at.day - u.user_created_date.day
      .ok
        { event_id := idx
          event_type := e.event_type
          event_created_at := e.event_created_at
          num_docs := e.num_docs
          feedback_score := e.feedback_score
          user_id := e.user_id
          user_title := u.user_title
          user_created_date := u.user_created_date
          firm_id := e.firm_id
          firm_size := f.firm_size
          arr_in_thousands := f.arr_in_thousands
          event_month := e.event_created_at.month
          event_week := e.event_created_at.week
          event_date := e.event_created_at.day
          user_tenure_days := tenure
          high_satisfaction_event := if pyGeOpt e.feedback_score 4 then 1 else 0
          high_volume_event := if pyGeOpt e.num_docs 10 then 1 else 0
          user_segment := user_segment tenure }

/-- The `for _, event in events_df.iterrows()` loop, lines 434-479; the
dataframe index enumerates the rows, giving the synthetic `event_id`. -/
def mkPerfRows (users : List User) (firms : List Firm) (events : List Event) :
    Except String (List PerfRow) :=
  mapE (fun p => mkPerfRow users firms p.1 p.2) events.enum

/-! ### Grouping (`groupby` over nullable keys)

pandas `groupby` drops every row whose key tuple contains a null and
returns the groups sorted by key. -/

/-- Byte-order comparison on characters. -/
def charLe (a b : Char) : Bool := a.val ≤ b.val

/-- Lexicographic comparison of character lists. -/
def chListLe : List Char → List Char → Bool
  | [], _ => true
  | _ :: _, [] => false
  | a :: as, b :: bs => if a = b then chListLe as bs else charLe a b

/-- Lexicographic string comparison (the order pandas sorts string group
keys by). -/
def strLe (a b : String) : Bool := chListLe a.data b.data

/-- The distinct non-null keys of a row list, sorted the way pandas sorts
groups. -/
def groupKeys {α K : Type} [DecidableEq K] (rows : List α) (k : α → Option K)
    (le : K → K → Bool) : List K :=
  List.insertionSort (fun a b => le a b = true) (rows.filterMap k).dedup

/-- The rows of the group with the given key. -/
def groupOf {α K : Type} [DecidableEq K] (rows : List α) (k : α → Option K) (key : K) :
    List α :=
  rows.filter (fun r => decide (k r = some key))

/-- Lexicographic order on a string triple. -/
def key3Le (x y : String × String × String) : Bool :=
  if x.1 = y.1 then
    (if x.2.1 = y.2.1 then strLe x.2.2 y.2.2 else strLe x.2.1 y.2.1)
  else strLe x.1 y.1

/-- Lexicographic order on a string quadruple. -/
def key4Le (x y : String × String × String × String) : Bool :=
  if x.1 = y.1 then key3Le x.2 y.2 else strLe x.1 y.1

/-- Lexicographic order on a day number followed by a string triple. -/
def dkeyLe (x y : ℤ × String × String × String) : Bool :=
  if x.1 = y.1 then key3Le x.2 y.2 else decide (x.1 ≤ y.1)

/-- Daily grouping key, lines 485: `(event_date, event_type, user_title,
user_segment)`; null when `event_type` or `user_title` is missing (pandas
drops those rows from the groups). -/
def dailyKey (r : PerfRow) : Option (ℤ × String × String × String) :=
  match r.event_type, r.user_title with
  | some et, some ut => some (r.event_date, et, ut, r.user_segment)
  | _, _ => none

/-- Weekly grouping key, line 521: `(event_week, event_type, user_title)`. -/
def weeklyKey (r : PerfRow) : Option (String × String × String) :=
  match r.event_type, r.user_title with
  | some et, some ut => some (r.event_week, et, ut)
  | _, _ => none

/-- Monthly grouping key, line 556: `(event_month, event_type, user_title,
user_segment)`. -/
def monthlyKey (r : PerfRow) : Option (String × String × String × String) :=
  match r.event_type, r.user_title with
  | some et, some ut => some (r.event_month, et, ut, r.user_segment)
  | _, _ => none

/-- The `.agg({...})` output shared by the three grains (lines 485-493,
521-529, 556-564): count, distinct users/firms, document sum and mean,
feedback mean, high-satisfaction and high-volume counts. -/
structure GrainAgg where
  total_events : ℕ
  unique_users : ℕ
  unique_firms : ℕ
  total_documents_processed : ℚ
  avg_documents_per_event : Option ℚ
  avg_satisfaction_score : Option ℚ
  high_satisfaction_events : ℕ
  high_volume_events : ℕ
deriving DecidableEq, Repr

/-- Compute the shared aggregates over one group's rows. -/
def aggOf (g : List PerfRow) : GrainAgg :=
  { total_events := g.length
    unique_users := (g.map (·.user_id)).dedup.length
    unique_firms := (g.map (·.firm_id)).dedup.length
    total_documents_processed := (g.filterMap (·.num_docs)).sum
    avg_documents_per_event := meanOpt (g.map (·.num_docs))
    avg_satisfaction_score := meanOpt (g.map (·.feedback_score))
    high_satisfaction_events := (g.map (·.high_satisfaction_event)).sum
    high_volume_events := (g.map (·.high_volume_event)).sum }

/-- A row of `daily_metrics` (lines 485-518). -/
structure DailyRow where
  event_date : ℤ
  event_type : String
  user_title : String
  user_segment : String
  agg : GrainAgg
  satisfaction_rate_pct : ℚ
  high_volume_rate_pct : ℚ
  documents_per_user : ℚ
  events_per_user : ℚ
deriving DecidableEq, Repr

/-- Lines 485-518: group by the daily key, aggregate, then derive the
rate and per-user ratio columns. -/
def dailyMetrics (rows : List PerfRow) : List DailyRow :=
  (groupKeys rows dailyKey dkeyLe).map (fun k =>
    let agg := aggOf (groupOf rows dailyKey k)
    { event_date := k.1
      event_type := k.2.1
      user_title := k.2.2.1
      user_segment := k.2.2.2
      agg := agg
      satisfaction_rate_pct := round2 ((agg.high_satisfaction_events : ℚ) / agg.total_events * 100)
      high_volume_rate_pct := round2 ((agg.high_volume_events : ℚ) / agg.total_events * 100)
      documents_per_user := round2 (agg.total_documents_processed / agg.unique_users)
      events_per_user := round2 ((agg.total_events : ℚ) / agg.unique_users) })

/-- A row of `weekly_metrics` (lines 521-553). -/
structure WeeklyRow where
  event_week : String
  event_type : String
  user_title : String
  agg : GrainAgg
  satisfaction_rate_pct : ℚ
  high_volume_rate_pct : ℚ
  week_over_week_growth_pct : Option ℚ
deriving DecidableEq, Repr

/-- Lines 546-550: growth against the previous week's count; pandas
`shift(1)` yields null for the first row of a series, and a zero previous
count is replaced by `NaN` before dividing, so both cases are null. -/
def wowGrowth (prev : Option ℕ) (curr : ℕ) : Option ℚ :=
  match prev with
  | none => none
  | some p => if p = 0 then none else some (round2 (((curr : ℚ) - (p : ℚ)) * 100 / (p : ℚ)))

/-- The growth series key, line 546: `(event_type, user_title)`. -/
def seriesKey (w : WeeklyRow) : String × String := (w.event_type, w.user_title)

/-- Model of `groupby(['event_type','user_title'])['total_events'].shift(1)`
followed by the growth formula: walk the frame in order keeping, per
series key, the count most recently seen. -/
def addGrowthAux (seen : List ((String × String) × ℕ)) : List WeeklyRow → List WeeklyRow
  | [] => []
  | w :: ws =>
    let prev := (seen.find? (fun p => decide (p.1 = seriesKey w))).map (·.2)
    { w with week_over_week_growth_pct := wowGrowth prev w.agg.total_events }
      :: addGrowthAux ((seriesKey w, w.agg.total_events) :: seen) ws

/-- Lines 521-543: group by the weekly key and aggregate (the growth
column is assigned afterwards, so it starts out null). -/
def weeklyBase (rows : List PerfRow) : List WeeklyRow :=
  (groupKeys rows weeklyKey key3Le).map (fun k =>
    let agg := aggOf (groupOf rows weeklyKey k)
    { event_week := k.1
      event_type := k.2.1
      user_title := k.2.2
      agg := agg
      satisfaction_rate_pct := round2 ((agg.high_satisfaction_events : ℚ) / agg.total_events * 100)
      high_volume_rate_pct := round2 ((agg.high_volume_events : ℚ) / agg.total_events * 100)
      week_over_week_growth_pct := none })

/-- Lines 521-553: the weekly table with the week-over-week growth
column filled in. -/
def weeklyMetrics (rows : List PerfRow) : List WeeklyRow :=
  addGrowthAux [] (weeklyBase rows)

/-- A row of `monthly_metrics` (lines 556-598). -/
structure MonthlyRow where
  event_month : String
  event_type : String
  user_title : String
  user_segment : String
  agg : GrainAgg
  satisfaction_rate_pct : ℚ
  high_volume_rate_pct : ℚ
  events_per_user : ℚ
  documents_per_user : ℚ
  satisfaction_performance : String
  volume_performance : String
deriving DecidableEq, Repr

/-- Lines 556-598: group by the monthly key, aggregate, derive ratios and
the two performance buckets. -/
def monthlyMetrics (rows : List PerfRow) : List MonthlyRow :=
  (groupKeys rows monthlyKey key4Le).map (fun k =>
    let agg := aggOf (groupOf rows monthlyKey k)
    { event_month := k.1
      event_type := k.2.1
      user_title := k.2.2.1
      user_segment := k.2.2.2
      agg := agg
      satisfaction_rate_pct := round2 ((agg.high_satisfaction_events : ℚ) / agg.total_events * 100)
      high_volume_rate_pct := round2 ((agg.high_volume_events : ℚ) / agg.total_events * 100)
      events_per_user := round2 ((agg.total_events : ℚ) / agg.unique_users)
      documents_per_user := round2 (agg.total_documents_processed / agg.unique_users)
      satisfaction_performance := satisfaction_performance_of agg.avg_satisfaction_score
      volume_performance := volume_performance_of agg.total_events })

/-- The heterogeneous `time_period` column of the combined table: a date
for daily rows, a week string for weekly rows, a month string for
monthly rows. -/
inductive TimePeriod where
  | date : ℤ → TimePeriod
  | week : String → TimePeriod
  | month : String → TimePeriod
deriving DecidableEq, Repr

/-- A row of the unified `combined_metrics` table (lines 600-634): the
superset schema of the three grains, with columns a grain does not
compute holding an explicit null (`none`). -/
structure MetricRow where
  time_grain : String
  time_period : TimePeriod
  event_type : String
  user_title : String
  user_segment : Option String
  agg : GrainAgg
  satisfaction_rate_pct : ℚ
  high_volume_rate_pct : ℚ
  documents_per_user : Option ℚ
  events_per_user : Option ℚ
  week_over_week_growth_pct : Option ℚ
  satisfaction_performance : Option String
  volume_performance : Option String
deriving DecidableEq, Repr

/-- Lines 602-606 and 624-626: a daily row widened to the union schema. -/
def dailyUnionRow (d : DailyRow) : MetricRow :=
  { time_grain := "daily"
    time_period := .date d.event_date
    event_type := d.event_type
    user_title := d.user_title
    user_segment := some d.user_segment
    agg := d.agg
    satisfaction_rate_pct := d.satisfaction_rate_pct
    high_volume_rate_pct := d.high_volume_rate_pct
    documents_per_user := some d.documents_per_user
    events_per_user := some d.events_per_user
    week_over_week_growth_pct := none
    satisfaction_performance := none
    volume_performance := none }

/-- Lines 608-615 and 628-629: a weekly row widened to the union schema;
`user_segment`, the per-user ratios and the performance buckets are
filled with the explicit null marker. -/
def weeklyUnionRow (w : WeeklyRow) : MetricRow :=
  { time_grain := "weekly"
    time_period := .week w.event_week
    event_type := w.event_type
    user_title := w.user_title
    user_segment := none
    agg := w.agg
    satisfaction_rate_pct := w.satisfaction_rate_pct
    high_volume_rate_pct := w.high_volume_rate_pct
    documents_per_user := none
    events_per_user := none
    week_over_week_growth_pct := w.week_over_week_growth_pct
    satisfaction_performance := none
    volume_performance := none }

/-- Lines 617-621 and 631: a monthly row widened to the union schema. -/
def monthlyUnionRow (m : MonthlyRow) : MetricRow :=
  { time_grain := "monthly"
    time_period := .month m.event_month
    event_type := m.event_type
    user_title := m.user_title
    user_segment := some m.user_segment
    agg := m.agg
    satisfaction_rate_pct := m.satisfaction_rate_pct
    high_volume_rate_pct := m.high_volume_rate_pct
    documents_per_user := some m.documents_per_user
    events_per_user := some m.events_per_user
    week_over_week_growth_pct := none
    satisfaction_performance := some m.satisfaction_performance
    volume_performance := some m.volume_performance }

/-- Line 634: `pd.concat([daily_union, weekly_union, monthly_union])`. -/
def combinedMetrics (rows : List PerfRow) : List MetricRow :=
  (dailyMetrics rows).map dailyUnionRow
    ++ (weeklyMetrics rows).map weeklyUnionRow
    ++ (monthlyMetrics rows).map monthlyUnionRow

/-! ### The pandas column dynamics of the pipeline

`pd.DataFrame(records)` infers its columns from the records, so the
frame built from an empty record list has no columns at all, and the
subsequent `groupby` raises `KeyError` on its key columns. -/

/-- The columns of `event_performance_df`, lines 460-479. -/
def perfColumns : List String :=
  ["event_id", "event_type", "event_created_at", "num_docs", "feedback_score",
   "user_id", "user_title", "user_created_date", "firm_id", "firm_size",
   "arr_in_thousands", "event_month", "event_week", "event_date",
   "user_tenure_days", "high_satisfaction_event", "high_volume_event", "user_segment"]

/-- Columns of `pd.DataFrame(rows)`: none when the record list is empty. -/
def dataFrameColumns (rows : List PerfRow) : List String :=
  match rows with
  | [] => []
  | _ :: _ => perfColumns

/-- Model of `df.groupby(keyCols)`: it checks its key columns exist in the frame and
raises `KeyError` otherwise; on success the row list flows through. -/
def groupbyGuard (rows : List PerfRow) (keyCols : List String) :
    Except String (List PerfRow) :=
  if keyCols.all (fun c => (dataFrameColumns rows).contains c) then .ok rows
  else .error "KeyError: groupby key column not in the dataframe"

/-- From `simulate_event_performance_metrics`, lines 418-663 (the computation
of the combined table; printing and CSV export are presentation): build
the per-event base table, group it at the three grains, and union the
widened per-grain tables. -/
def simulate_event_performance_metrics (users : List User) (firms : List Firm)
    (events : List Event) : Except String (List MetricRow) := do
  let rows ← mkPerfRows users firms events
  let dailyRows ← groupbyGuard rows ["event_date", "event_type", "user_title", "user_segment"]
  let weeklyRows ← groupbyGuard rows ["event_week", "event_type", "user_title"]
  let monthlyRows ← groupbyGuard rows ["event_month", "event_type", "user_title", "user_segment"]
  pure ((dailyMetrics dailyRows).map dailyUnionRow
    ++ (weeklyMetrics weeklyRows).map weeklyUnionRow
    ++ (monthlyMetrics monthlyRows).map monthlyUnionRow)

/-! ### `simulate_user_engagement` (lines 18-99) -/

/-- Model of `Series.unique()`: the distinct values in first-occurrence order. -/
def uniqueList {α : Type} [DecidableEq α] : List α → List α
  | [] => []
  | a :: l => a :: (uniqueList l).filter (fun b => decide (¬ b = a))

/-- One row of the engagement model (lines 61-71). -/
structure EngagementRow where
  user_id : String
  firm_id : String
  user_title : Option String
  month : String
  query_count : ℕ
  active_days : ℕ
  total_documents_processed : ℚ
  avg_feedback_score : Option ℚ
  engagement_level : String
deriving DecidableEq, Repr

/-- Lines 38-71 for one user of one month: the engagement row of that
user, built from the user's events of the month (the user lookup
`.iloc[0]` faults when the event's user has no record). -/
def engagementRowForUser (users : List User) (month_events : List Event) (m : String)
    (uid : String) : Except String EngagementRow :=
  let user_events := month_events.filter (fun e => decide (e.user_id = uid))
  match findUser users uid with
  | none => .error "IndexError: user_id has no matching user record"
  | some u =>
    match user_events.head? with
    | none => .error "IndexError: first firm id of an empty selection"
    | some e0 =>
      let query_count := user_events.length
      let active_days := (user_events.map (·.event_created_at.day)).dedup.length
      .ok
        { user_id := uid
          firm_id := e0.firm_id
          user_title := u.user_title
          month := m
          query_count := query_count
          active_days := active_days
          total_documents_processed := (user_events.filterMap (·.num_docs)).sum
          avg_feedback_score := (meanOpt (user_events.map (·.feedback_score))).map round2
          engagement_level := engagement_level query_count active_days }

/-- Lines 35-71 for one month: the per-user rows of that month, one per
distinct user id among the month's events. -/
def engagementRowsForMonth (users : List User) (events : List Event) (m : String) :
    Except String (List EngagementRow) :=
  let month_events := events.filter (fun e => decide (e.event_created_at.month = m))
  mapE (engagementRowForUser users month_events m)
    (uniqueList (month_events.map (·.user_id)))

/-- From `simulate_user_engagement`, lines 18-99 (the model table; printing
and CSV export are presentation): iterate the distinct event months and
collect each month's per-user rows. -/
def simulate_user_engagement (users : List User) (events : List Event) :
    Except String (List EngagementRow) :=
  match mapE (engagementRowsForMonth users events)
      (uniqueList (events.map (·.event_created_at.month))) with
  | .error e => .error e
  | .ok ls => .ok ls.flatten

/-! ### `simulate_user_acquisition_base` (lines 280-416) -/

/-- One row of the acquisition base model (lines 370-391). -/
structure AcquisitionBaseRow where
  user_id : String
  user_title : Option String
  user_created_date : Timestamp
  firm_id : Option String
  firm_size : Option ℚ
  arr_in_thousands : Option ℚ
  acquisition_month : String
  first_activity_day : Option ℤ
  days_to_first_activity : Option ℤ
  total_events : ℕ
  active_days : ℕ
  avg_satisfaction_score : Option PyFloat
  total_documents_processed : ℚ
  is_activated : ℕ
  is_quick_start : ℕ
  is_monthly_activated : ℕ
  firm_size_category : String
  arr_category : String
  activation_category : String
  satisfaction_category : String
deriving DecidableEq, Repr

/-- Lines 296-391 for one user: the firm is taken from the user's first
event; a firm id with no matching firm record makes `.iloc[0]` fault,
while a user with no events gets null firm fields and `Unknown`
categories. -/
def acquisitionBaseRow (firms : List Firm) (events : List Event) (u : User) :
    Except String AcquisitionBaseRow :=
  let user_events := events.filter (fun e => decide (e.user_id = u.user_id))
  let firm_id : Option String := user_events.head?.map (·.firm_id)
  let firm_infoE : Except String (Option Firm) :=
    match firm_id with
    | none => .ok none
    | some fid =>
      match findFirm firms fid with
      | none => .error "IndexError: firm_id has no matching firm record"
      | some f => .ok (some f)
  match firm_infoE with
  | .error e => .error e
  | .ok firm_info =>
    let first_activity : Option ℤ := (user_events.map (·.event_created_at.day)).min?
    let days_to_first_activity : Option ℤ :=
      first_activity.map (fun fa => fa - u.user_created_date.day)
    let is_activated : ℕ := if first_activity.isSome then 1 else 0
    let is_quick_start : ℕ :=
      match days_to_first_activity with
      | some d => if d ≤ 7 then 1 else 0
      | none => 0
    let is_monthly_activated : ℕ :=
      match days_to_first_activity with
      | some d => if d ≤ 30 then 1 else 0
      | none => 0
    let avg := avgSatisfaction user_events
    .ok
      { user_id := u.user_id
        user_title := u.user_title
        user_created_date := u.user_created_date
        firm_id := firm_id
        firm_size := firm_info.map (·.firm_size)
        arr_in_thousands := firm_info.map (·.arr_in_thousands)
        acquisition_month := u.user_created_date.month
        first_activity_day := first_activity
        days_to_first_activity := days_to_first_activity
        total_events := user_events.length
        active_days :=
          if user_events.length > 0 then
            (user_events.map (·.event_created_at.day)).dedup.length
          else 0
        avg_satisfaction_score := avg
        total_documents_processed :=
          if user_events.length > 0 then (user_events.filterMap (·.num_docs)).sum else 0
        is_activated := is_activated
        is_quick_start := is_quick_start
        is_monthly_activated := is_monthly_activated
        firm_size_category :=
          match firm_info with
          | none => "Unknown"
          | some f => firm_size_category_of f.firm_size
        arr_category :=
          match firm_info with
          | none => "Unknown"
          | some f => arr_category_of f.arr_in_thousands
        activation_category := activation_category_of is_activated days_to_first_activity
        satisfaction_category := satisfaction_category avg }

/-- From `simulate_user_acquisition_base`, lines 280-416 (the model table):
one row per distinct user id. -/
def simulate_user_acquisition_base (users : List User) (firms : List Firm)
    (events : List Event) : Except String (List AcquisitionBaseRow) :=
  mapE (fun uid =>
    match findUser users uid with
    | none => .error "IndexError: user_id has no matching user record"
    | some u => acquisitionBaseRow firms events u)
    (uniqueList (users.map (·.user_id)))

/-! ### In-place mutation of the loaded frames (`simulate_user_engagement`, lines 27-29) -/

/-- The three loaded dataframes: their row data and their column lists. -/
structure TableState where
  users : List User
  firms : List Firm
  events : List Event
  users_cols : List String
  firms_cols : List String
  events_cols : List String
deriving DecidableEq, Repr

/-- The state right after `load_harvey_data()`: the renamed columns of
`data_loader.py`, lines 35-55. -/
def loadedState (users : List User) (firms : List Firm) (events : List Event) :
    TableState :=
  { users := users
    firms := firms
    events := events
    users_cols := ["user_id", "user_created_date", "user_title"]
    firms_cols := ["firm_id", "firm_created_date", "firm_size", "arr_in_thousands"]
    events_cols := ["firm_id", "user_id", "event_type", "event_created_at",
                    "num_docs", "feedback_score"] }

/-- pandas `df[col] = ...`: appends the column when absent, overwrites it
in place when present. -/
def assignColumn (cols : List String) (c : String) : List String :=
  if c ∈ cols then cols else cols ++ [c]

/-- Lines 27-29: `events_df['month'] = ...` adds a derived column to the
loaded events frame in place, and `users_df['user_created_date'] = ...`
reassigns the (already parsed, so value-identical) users date column.
The row data of the three collections is not changed. -/
def engagementPrelude (s : TableState) : TableState :=
  { s with
    events_cols := assignColumn s.events_cols "month"
    users_cols := assignColumn s.users_cols "user_created_date" }

/-! ### Spec-side formulations (for refinement statements) -/

/-- First tier in the list whose condition holds; `Inactive` when none
does. -/
def firstTier : List (String × Bool) → String
  | [] => "Inactive"
  | t :: rest => if t.2 then t.1 else firstTier rest

/-- The engagement ladder as the spec words it: the highest tier whose
both conditions hold, checked in descending order. -/
def engagement_level_spec (query_count active_days : ℕ) : String :=
  firstTier
    [("Power User", decide (query_count ≥ 50) && decide (active_days ≥ 15)),
     ("Active User", decide (query_count ≥ 20) && decide (active_days ≥ 8)),
     ("Regular User", decide (query_count ≥ 5) && decide (active_days ≥ 3)),
     ("Occasional User", decide (query_count ≥ 1))]

/-- The satisfaction bucket as amended: `No Feedback` exactly for a user
with no events; a user with events but no feedback scores averages to
`NaN` and lands in `Low Satisfaction`; otherwise the stated half-open
threshold intervals on the average of the present scores. -/
def satisfaction_category_spec (user_events : List Event) : String :=
  if user_events = [] then "No Feedback"
  else
    let scores := user_events.filterMap (·.feedback_score)
    if scores = [] then "Low Satisfaction"
    else
      let avg := scores.sum / (scores.length : ℚ)
      if avg < 3.5 then "Low Satisfaction"
      else if avg < 4 then "Fair Satisfaction"
      else if avg < 4.5 then "Good Satisfaction"
      else "High Satisfaction"

/-- The week-over-week growth of a count series as the spec (amended
with the source's 2-decimal rounding) words it: walking the series with
the previous count at hand, growth is absent when there is no previous
week or the previous count is zero, else the rounded percentage
change. -/
def weekSeriesGrowthSpec : Option ℕ → List ℕ → List (Option ℚ)
  | _, [] => []
  | prev, c :: cs =>
    (match prev with
     | none => none
     | some p => if p = 0 then none else some (round2 (((c : ℚ) - (p : ℚ)) * 100 / (p : ℚ))))
      :: weekSeriesGrowthSpec (some c) cs

/-! ### Concrete sample data (used to instantiate theorems) -/

/-- A sample user creation time. -/
def tsU : Timestamp := { day := 0, week := "2024-W01", month := "2024-01" }

/-- A sample event time, ten days after `tsU`. -/
def tsA : Timestamp := { day := 10, week := "2024-W02", month := "2024-01" }

/-- A sample user. -/
def userA : User :=
  { user_id := "u1", user_created_date := tsU, user_title := some "Associate" }

/-- A sample firm. -/
def firmA : Firm :=
  { firm_id := "f1"
    firm_created_date := { day := -10, week := "2023-W50", month := "2023-12" }
    firm_size := 120
    arr_in_thousands := 250 }

/-- A sample well-referenced event. -/
def eventA : Event :=
  { user_id := "u1", firm_id := "f1", event_type := some "ASSISTANT",
    event_created_at := tsA, num_docs := some 10, feedback_score := some 4 }

/-- An event whose `user_id` matches no user record. -/
def eventOrphanUser : Event := { eventA with user_id := "zz" }

/-- An event whose `firm_id` matches no firm record. -/
def eventOrphanFirm : Event := { eventA with firm_id := "zz" }

/-- An event carrying no feedback score. -/
def eventNoFeedback : Event := { eventA with feedback_score := none }

/-- A weekly aggregate with a given event count (remaining aggregates
arbitrary). -/
def wAgg (n : ℕ) : GrainAgg :=
  { total_events := n, unique_users := 1, unique_firms := 1,
    total_documents_processed := 0, avg_documents_per_event := none,
    avg_satisfaction_score := none, high_satisfaction_events := 0,
    high_volume_events := 0 }

/-- A weekly row of the `("ASSISTANT", "Associate")` series with the
given week label and event count. -/
def wRow (wk : String) (n : ℕ) : WeeklyRow :=
  { event_week := wk, event_type := "ASSISTANT", user_title := "Associate",
    agg := wAgg n, satisfaction_rate_pct := 0, high_volume_rate_pct := 0,
    week_over_week_growth_pct := none }

/-- The engagement row `simulate_user_engagement` produces for `userA`
and `eventA`. -/
def engRowA : EngagementRow :=
  { user_id := "u1", firm_id := "f1", user_title := some "Associate",
    month := "2024-01", query_count := 1, active_days := 1,
    total_documents_processed := 10, avg_feedback_score := some 4,
    engagement_level := "Occasional User" }

/-- The base-table row `mkPerfRow` produces for `eventA` joined with
`userA` and `firmA`. -/
def perfRowA : PerfRow :=
  { event_id := 0
    event_type := some "ASSISTANT"
    event_created_at := tsA
    num_docs := some 10
    feedback_score := some 4
    user_id := "u1"
    user_title := some "Associate"
    user_created_date := tsU
    firm_id := "f1"
    firm_size := 120
    arr_in_thousands := 250
    event_month := "2024-01"
    event_week := "2024-W02"
    event_date := 10
    user_tenure_days := 10
    high_satisfaction_event := 1
    high_volume_event := 1
    user_segment := "Recent User" }

/-- The aggregates of the singleton group `[perfRowA]`. -/
def aggA : GrainAgg :=
  { total_events := 1, unique_users := 1, unique_firms := 1,
    total_documents_processed := 10, avg_documents_per_event := some 10,
    avg_satisfaction_score := some 4, high_satisfaction_events := 1,
    high_volume_events := 1 }

/-- The weekly metric row `weeklyMetrics` produces for `[perfRowA]`. -/
def wkMetricA : WeeklyRow :=
  { event_week := "2024-W02", event_type := "ASSISTANT", user_title := "Associate",
    agg := aggA, satisfaction_rate_pct := 100, high_volume_rate_pct := 100,
    week_over_week_growth_pct := none }

/-- The daily metric row `dailyMetrics` produces for `[perfRowA]`. -/
def dMetricA : DailyRow :=
  { event_date := 10, event_type := "ASSISTANT", user_title := "Associate",
    user_segment := "Recent User", agg := aggA, satisfaction_rate_pct := 100,
    high_volume_rate_pct := 100, documents_per_user := 10, events_per_user := 1 }

/-- The monthly metric row `monthlyMetrics` produces for `[perfRowA]`. -/
def mMetricA : MonthlyRow :=
  { event_month := "2024-01", event_type := "ASSISTANT", user_title := "Associate",
    user_segment := "Recent User", agg := aggA, satisfaction_rate_pct := 100,
    high_volume_rate_pct := 100, events_per_user := 1, documents_per_user := 10,
    satisfaction_performance := "Good", volume_performance := "Minimal Volume" }

/-! ## Theorems -/

/-- C1: the spec requires events with dangling `user_id`/`firm_id`
references to be tolerated with absent derived fields; the code instead
faults: the per-event loop of `simulate_event_performance_metrics` and
the firm lookup of `simulate_user_acquisition_base` index an empty
selection with `.iloc[0]`, raising `IndexError`. -/
theorem claim_C1_orphan_reference_faults :
    mkPerfRows [userA] [firmA] [eventOrphanUser]
        = .error "IndexError: user_id has no matching user record"
  ∧ mkPerfRows [userA] [firmA] [eventOrphanFirm]
        = .error "IndexError: firm_id has no matching firm record"
  ∧ simulate_user_acquisition_base [userA] [firmA] [eventOrphanFirm]
        = .error "IndexError: firm_id has no matching firm record" :=
  ⟨rfl, rfl, rfl⟩

/-- C2: the spec requires an empty event set to yield zero groups and a
header-only combined table; the code instead faults: the base frame
built from an empty record list has no columns, so the first `groupby`
raises `KeyError`. -/
theorem claim_C2_empty_events_fault (users : List User) (firms : List Firm) :
    simulate_event_performance_metrics users firms []
      = .error "KeyError: groupby key column not in the dataframe" := rfl

/-- C3 counterexample: a user whose events all lack a feedback score has
no feedback scores to average (the claimed condition for `No Feedback`),
yet the code classifies the user as `Low Satisfaction`, because the
`NaN` average is not Python `None` and fails every `>=` comparison. -/
theorem claim_C3_counterexample :
    [eventNoFeedback].filterMap (·.feedback_score) = []
  ∧ satisfaction_category (avgSatisfaction [eventNoFeedback]) = "Low Satisfaction"
  ∧ satisfaction_category (avgSatisfaction [eventNoFeedback]) ≠ "No Feedback" :=
  ⟨rfl, rfl, by decide⟩

/-- C3 as amended: `No Feedback` exactly when the user has no events; a
user with events but no feedback scores gets `Low Satisfaction` (the
`NaN` average fails every comparison); otherwise the stated thresholds
on the average of the present scores. -/
theorem claim_C3_satisfaction_category (user_events : List Event) :
    satisfaction_category (avgSatisfaction user_events)
      = satisfaction_category_spec user_events := by
  cases user_events with
  | nil => rfl
  | cons e es =>
    have hne : (e :: es) ≠ ([] : List Event) := by simp
    have hmap : ((e :: es).map (·.feedback_score)).filterMap id
        = (e :: es).filterMap (·.feedback_score) := by
      rw [List.filterMap_map]; rfl
    rw [satisfaction_category_spec, if_neg hne]
    simp only [avgSatisfaction, seriesMean, hmap, List.length_cons]
    rw [if_pos (Nat.succ_pos es.length)]
    by_cases hvs : (e :: es).filterMap (·.feedback_score) = []
    · rw [if_pos (by simp [hvs]), if_pos hvs]
      simp [satisfaction_category, pyGe]
    · rw [if_neg (by simp [List.length_eq_zero, hvs]), if_neg hvs]
      simp only [satisfaction_category, pyGe, ge_iff_le, decide_eq_true_eq]
      split_ifs <;> first | rfl | (exfalso; linarith)

/-- C6: the engagement ladder returns the highest tier whose both
conditions hold, checked in descending order, with the stated examples. -/
theorem claim_C6_engagement_level (query_count active_days : ℕ) :
    engagement_level query_count active_days
        = engagement_level_spec query_count active_days
  ∧ engagement_level 50 15 = "Power User"
  ∧ engagement_level 49 15 = "Active User"
  ∧ engagement_level 0 0 = "Inactive" := by
  refine ⟨?_, by decide, by decide, by decide⟩
  simp only [engagement_level, engagement_level_spec, firstTier, Bool.and_eq_true,
    decide_eq_true_eq]

/-- C7: the user segment thresholds are inclusive upper bounds at 7, 30
and 90 days, and a negative tenure is classified by the same ladder
(landing in `New User`). -/
theorem claim_C7_user_segment (tenure_days : ℤ) :
    (user_segment tenure_days = "New User" ↔ tenure_days ≤ 7)
  ∧ (user_segment tenure_days = "Recent User" ↔ 7 < tenure_days ∧ tenure_days ≤ 30)
  ∧ (user_segment tenure_days = "Established User" ↔ 30 < tenure_days ∧ tenure_days ≤ 90)
  ∧ (user_segment tenure_days = "Long-term User" ↔ 90 < tenure_days)
  ∧ (tenure_days < 0 → user_segment tenure_days = "New User") := by
  unfold user_segment
  split_ifs with h1 h2 h3 <;> simp_all <;> omega

/-- C7 witness: the theorem applied at concrete tenures, including a
negative one. -/
theorem claim_C7_user_segment_witness :
    user_segment (-5) = "New User" ∧ user_segment 31 = "Established User" :=
  ⟨(claim_C7_user_segment (-5)).2.2.2.2 (by decide),
   ((claim_C7_user_segment 31).2.2.1).mpr (by decide)⟩

/-- Every successful element of an effectful map comes from some input
element on which the step succeeded. -/
theorem mapE_ok_mem {α β : Type} (f : α → Except String β) :
    ∀ (l : List α) (out : List β), mapE f l = .ok out → ∀ b ∈ out, ∃ a ∈ l, f a = .ok b := by
  intro l
  induction l with
  | nil =>
    intro out h b hb
    rw [mapE] at h
    cases h
    exact absurd hb (by simp)
  | cons a l ih =>
    intro out h b hb
    rw [mapE] at h
    cases hfa : f a with
    | error e => rw [hfa] at h; cases h
    | ok b0 =>
      rw [hfa] at h
      cases hml : mapE f l with
      | error e => rw [hml] at h; cases h
      | ok bs =>
        rw [hml] at h
        cases h
        rcases List.mem_cons.mp hb with rfl | hmem
        · exact ⟨a, List.mem_cons_self a l, hfa⟩
        · obtain ⟨a2, ha2, hfa2⟩ := ih bs hml b hmem
          exact ⟨a2, List.mem_cons_of_mem a ha2, hfa2⟩

/-- The engagement ladder never yields `Inactive` on a positive query
count. -/
theorem engagement_level_ne_inactive_of_pos (q d : ℕ) (hq : 1 ≤ q) :
    engagement_level q d ≠ "Inactive" := by
  unfold engagement_level
  split_ifs <;> decide

/-- C10: every engagement row is built from a (month, user) pair having
at least one event, so its query count is at least 1 and the `Inactive`
branch of the ladder is unreachable in the engagement output. -/
theorem claim_C10_engagement_rows_active (users : List User) (events : List Event)
    (out : List EngagementRow) (h : simulate_user_engagement users events = .ok out) :
    ∀ r ∈ out, 1 ≤ r.query_count ∧ r.engagement_level ≠ "Inactive" := by
  intro r hr
  rw [simulate_user_engagement] at h
  cases hm : mapE (engagementRowsForMonth users events)
      (uniqueList (events.map (·.event_created_at.month))) with
  | error e => rw [hm] at h; cases h
  | ok ls =>
    rw [hm] at h
    cases h
    rw [List.mem_flatten] at hr
    obtain ⟨lm, hlm, hrlm⟩ := hr
    obtain ⟨m, _, hfm⟩ := mapE_ok_mem _ _ _ hm lm hlm
    rw [engagementRowsForMonth] at hfm
    obtain ⟨uid, huid, hrow⟩ := mapE_ok_mem _ _ _ hfm r hrlm
    rw [engagementRowForUser] at hrow
    cases hfu : findUser users uid with
    | none => rw [hfu] at hrow; cases hrow
    | some u =>
      rw [hfu] at hrow
      cases hh : (List.filter (fun e => decide (e.user_id = uid))
          (List.filter (fun e => decide (e.event_created_at.month = m)) events)).head? with
      | none => rw [hh] at hrow; cases hrow
      | some e0 =>
        rw [hh] at hrow
        cases hrow
        have hne : List.filter (fun e => decide (e.user_id = uid))
            (List.filter (fun e => decide (e.event_created_at.month = m)) events) ≠ [] := by
          intro hnil
          rw [hnil] at hh
          cases hh
        have hpos : 1 ≤ (List.filter (fun e => decide (e.user_id = uid))
            (List.filter (fun e => decide (e.event_created_at.month = m)) events)).length :=
          List.length_pos.mpr hne
        exact ⟨hpos, engagement_level_ne_inactive_of_pos _ _ hpos⟩

/-- C10 witness: the theorem applied to the one-user, one-event sample,
whose single engagement row has query count 1 and level
`Occasional User`. -/
theorem claim_C10_witness :
    1 ≤ engRowA.query_count ∧ engRowA.engagement_level ≠ "Inactive" :=
  claim_C10_engagement_rows_active [userA] [eventA] [engRowA]
    (by norm_num [simulate_user_engagement, engagementRowsForMonth, engagementRowForUser,
      mapE, uniqueList, findUser, meanOpt, round2, roundHalfEven, engagement_level,
      engRowA, userA, eventA, tsA, tsU, List.filterMap_cons, List.filterMap_nil,
      List.sum_cons, List.sum_nil, Int.fract])
    engRowA (by simp)

/-- Reassigning the growth column leaves the series key unchanged. -/
theorem seriesKey_update (w : WeeklyRow) (g : Option ℚ) :
    seriesKey {w with week_over_week_growth_pct := g} = seriesKey w := rfl

/-- The growth pass, restricted to one `(event_type, user_title)`
series, computes exactly the walk of that series' counts with the
previous count at hand (the accumulator holding, per key, the count most
recently seen). -/
theorem addGrowthAux_series (k : String × String) :
    ∀ (ws : List WeeklyRow) (seen : List ((String × String) × ℕ)),
      ((addGrowthAux seen ws).filter (fun w => decide (seriesKey w = k))).map
          (·.week_over_week_growth_pct)
        = weekSeriesGrowthSpec ((seen.find? (fun p => decide (p.1 = k))).map (·.2))
            ((ws.filter (fun w => decide (seriesKey w = k))).map (·.agg.total_events)) := by
  intro ws
  induction ws with
  | nil => intro seen; rfl
  | cons w ws ih =>
    intro seen
    rw [addGrowthAux]
    by_cases hk : seriesKey w = k
    · subst hk
      simp only [List.filter_cons, seriesKey_update, decide_eq_true_eq, eq_self_iff_true,
        if_true, List.map_cons, weekSeriesGrowthSpec]
      have htail := ih ((seriesKey w, w.agg.total_events) :: seen)
      rw [List.find?_cons_of_pos _ (by simp)] at htail
      rw [htail]
      rfl
    · simp only [List.filter_cons, seriesKey_update, decide_eq_true_eq, hk, if_false]
      have htail := ih ((seriesKey w, w.agg.total_events) :: seen)
      rw [List.find?_cons_of_neg _ (by simpa using hk)] at htail
      exact htail

/-- C5 as amended: along every `(event_type, user_title)` weekly series
in table order, the computed growth is absent for the first entry and
whenever the previous count is zero, and otherwise equals the percentage
change rounded to two decimals (the source applies `.round(2)`); in
particular a 0-to-5 step has absent growth and a 10-to-15 step has
growth 50.0. -/
theorem claim_C5_week_over_week_growth :
    (∀ (ws : List WeeklyRow) (k : String × String),
      ((addGrowthAux [] ws).filter (fun w => decide (seriesKey w = k))).map
          (·.week_over_week_growth_pct)
        = weekSeriesGrowthSpec none
            ((ws.filter (fun w => decide (seriesKey w = k))).map (·.agg.total_events)))
  ∧ (addGrowthAux [] [wRow "2024-W01" 0, wRow "2024-W02" 5]).map
      (·.week_over_week_growth_pct) = [none, none]
  ∧ (addGrowthAux [] [wRow "2024-W01" 10, wRow "2024-W02" 15]).map
      (·.week_over_week_growth_pct) = [none, some 50] := by
  refine ⟨fun ws k => addGrowthAux_series k ws [], ?_, ?_⟩
  · norm_num [addGrowthAux, wowGrowth, wRow, wAgg, seriesKey]
  · norm_num [addGrowthAux, wowGrowth, round2, roundHalfEven, wRow, wAgg, seriesKey,
      Int.fract]

/-- C5 counterexample: the claim states the growth equals the exact
percentage change; the code rounds to two decimals, so a 3-to-4 step
yields 33.33 rather than 100/3. -/
theorem claim_C5_counterexample :
    (addGrowthAux [] [wRow "2024-W01" 3, wRow "2024-W02" 4]).map
        (·.week_over_week_growth_pct) = [none, some (3333/100)]
  ∧ (3333/100 : ℚ) ≠ ((4 : ℚ) - 3) * 100 / 3 := by
  constructor
  · norm_num [addGrowthAux, wowGrowth, round2, roundHalfEven, wRow, wAgg, seriesKey,
      Int.fract]
  · norm_num

/-- A group's size is the key's multiplicity among the non-null keys. -/
theorem length_groupOf_eq_count {α K : Type} [DecidableEq K] (rows : List α)
    (k : α → Option K) (key : K) :
    (groupOf rows k key).length = (rows.filterMap k).count key := by
  rw [groupOf]
  induction rows with
  | nil => rfl
  | cons r rs ih =>
    cases hk : k r with
    | none => simp [List.filter_cons, List.filterMap_cons, hk, ih]
    | some key2 =>
      by_cases h2 : key2 = key
      · subst h2
        simp [List.filter_cons, List.filterMap_cons, hk, ih, List.count_cons]
      · simp [List.filter_cons, List.filterMap_cons, hk, ih, List.count_cons, h2]

/-- As many non-null keys as rows with a non-null key. -/
theorem length_filterMap_eq_length_filter {α K : Type} (rows : List α) (k : α → Option K) :
    (rows.filterMap k).length = (rows.filter (fun r => (k r).isSome)).length := by
  induction rows with
  | nil => rfl
  | cons r rs ih => cases hk : k r <;> simp [List.filterMap_cons, List.filter_cons, hk, ih]

/-- Summing group sizes over the distinct (sorted) keys counts exactly
the rows whose key is non-null. -/
theorem sum_groupOf_lengths {α K : Type} [DecidableEq K] (rows : List α)
    (k : α → Option K) (le : K → K → Bool) :
    ((groupKeys rows k le).map (fun key => (groupOf rows k key).length)).sum
      = (rows.filter (fun r => (k r).isSome)).length := by
  rw [groupKeys]
  have hperm := (List.perm_insertionSort (fun a b => le a b = true)
    (rows.filterMap k).dedup).map (fun key => (groupOf rows k key).length)
  rw [hperm.sum_eq]
  have h1 : (rows.filterMap k).dedup.map (fun key => (groupOf rows k key).length)
      = (rows.filterMap k).dedup.map (fun key => (rows.filterMap k).count key) :=
    List.map_congr_left (fun key _ => length_groupOf_eq_count rows k key)
  rw [h1, List.sum_map_count_dedup_eq_length, length_filterMap_eq_length_filter]

/-- The growth pass does not touch the aggregate columns. -/
theorem addGrowthAux_map_total :
    ∀ (ws : List WeeklyRow) (seen : List ((String × String) × ℕ)),
      (addGrowthAux seen ws).map (·.agg.total_events) = ws.map (·.agg.total_events) := by
  intro ws
  induction ws with
  | nil => intro seen; rfl
  | cons w ws ih =>
    intro seen
    rw [addGrowthAux]
    simp [ih]

/-- C8: for each grain, summing the per-group event counts over all
groups equals the number of base rows whose partition keys for that
grain are all non-null. -/
theorem claim_C8_group_counts_roundtrip (rows : List PerfRow) :
    ((dailyMetrics rows).map (·.agg.total_events)).sum
        = (rows.filter (fun r => (dailyKey r).isSome)).length
  ∧ ((weeklyMetrics rows).map (·.agg.total_events)).sum
        = (rows.filter (fun r => (weeklyKey r).isSome)).length
  ∧ ((monthlyMetrics rows).map (·.agg.total_events)).sum
        = (rows.filter (fun r => (monthlyKey r).isSome)).length := by
  refine ⟨?_, ?_, ?_⟩
  · rw [dailyMetrics, List.map_map]
    exact sum_groupOf_lengths rows dailyKey dkeyLe
  · rw [weeklyMetrics, addGrowthAux_map_total, weeklyBase, List.map_map]
    exact sum_groupOf_lengths rows weeklyKey key3Le
  · rw [monthlyMetrics, List.map_map]
    exact sum_groupOf_lengths rows monthlyKey key4Le

/-- C4: every row of the unified table carries one of the three grain
tags; `documents_per_user` and `events_per_user` are present on every
daily and monthly row; and on every weekly row those two columns — and
the other columns absent from the weekly grain (`user_segment` and the
two performance buckets) — hold the explicit null marker, which is
distinct from zero. -/
theorem claim_C4_union_schema (rows : List PerfRow) (m : MetricRow)
    (hm : m ∈ combinedMetrics rows) :
    (m.time_grain = "daily" ∨ m.time_grain = "weekly" ∨ m.time_grain = "monthly")
  ∧ ((m.time_grain = "daily" ∨ m.time_grain = "monthly") →
      m.documents_per_user.isSome ∧ m.events_per_user.isSome)
  ∧ (m.time_grain = "weekly" →
      m.documents_per_user = none ∧ m.events_per_user = none
        ∧ m.user_segment = none ∧ m.satisfaction_performance = none
        ∧ m.volume_performance = none
        ∧ m.documents_per_user ≠ some 0 ∧ m.events_per_user ≠ some 0) := by
  rw [combinedMetrics] at hm
  rcases List.mem_append.mp hm with h | h
  · rcases List.mem_append.mp h with h2 | h2
    · obtain ⟨d, _, rfl⟩ := List.mem_map.mp h2
      simp [dailyUnionRow]
    · obtain ⟨w, _, rfl⟩ := List.mem_map.mp h2
      simp [weeklyUnionRow]
  · obtain ⟨mo, _, rfl⟩ := List.mem_map.mp h
    simp [monthlyUnionRow]

/-- Evaluating the weekly pipeline on the singleton base table. -/
theorem weeklyMetrics_perfRowA : weeklyMetrics [perfRowA] = [wkMetricA] := by
  norm_num [weeklyMetrics, weeklyBase, addGrowthAux, wowGrowth, groupKeys, groupOf,
    weeklyKey, aggOf, meanOpt, round2, roundHalfEven, seriesKey, List.insertionSort,
    List.orderedInsert, perfRowA, wkMetricA, aggA, Int.fract, List.filterMap_cons,
    List.filterMap_nil, List.sum_cons, List.sum_nil, List.dedup_cons_of_not_mem]

/-- Evaluating the daily pipeline on the singleton base table. -/
theorem dailyMetrics_perfRowA : dailyMetrics [perfRowA] = [dMetricA] := by
  simp only [dailyMetrics, groupKeys, groupOf, dailyKey, aggOf, meanOpt,
    List.insertionSort, List.orderedInsert, perfRowA, dMetricA, aggA,
    List.filterMap_cons, List.filterMap_nil, List.sum_cons, List.sum_nil,
    List.filter_cons, List.filter_nil, List.map_cons, List.map_nil,
    List.dedup_nil, List.dedup_cons_of_not_mem, List.length_cons, List.length_nil]
  norm_num [round2, roundHalfEven, List.filterMap_cons, List.filterMap_nil, id_eq,
    List.sum_cons, List.sum_nil, List.length_cons, List.length_nil, Int.fract]

/-- Evaluating the monthly pipeline on the singleton base table. -/
theorem monthlyMetrics_perfRowA : monthlyMetrics [perfRowA] = [mMetricA] := by
  simp only [monthlyMetrics, groupKeys, groupOf, monthlyKey, aggOf, meanOpt,
    satisfaction_performance_of, volume_performance_of, pyGeOpt,
    List.insertionSort, List.orderedInsert, perfRowA, mMetricA, aggA,
    List.filterMap_cons, List.filterMap_nil, List.sum_cons, List.sum_nil,
    List.filter_cons, List.filter_nil, List.map_cons, List.map_nil,
    List.dedup_nil, List.dedup_cons_of_not_mem, List.length_cons, List.length_nil]
  norm_num [round2, roundHalfEven, List.filterMap_cons, List.filterMap_nil, id_eq,
    List.sum_cons, List.sum_nil, List.length_cons, List.length_nil, Int.fract]

/-- Evaluating the union on the singleton base table. -/
theorem combinedMetrics_perfRowA :
    combinedMetrics [perfRowA]
      = [dailyUnionRow dMetricA, weeklyUnionRow wkMetricA, monthlyUnionRow mMetricA] := by
  rw [combinedMetrics, dailyMetrics_perfRowA, weeklyMetrics_perfRowA,
    monthlyMetrics_perfRowA]
  rfl

/-- C4 witness: the theorem applied to the weekly row the pipeline
produces for the one-event sample. -/
theorem claim_C4_union_schema_witness :
    ((weeklyUnionRow wkMetricA).time_grain = "daily"
        ∨ (weeklyUnionRow wkMetricA).time_grain = "weekly"
        ∨ (weeklyUnionRow wkMetricA).time_grain = "monthly")
  ∧ (((weeklyUnionRow wkMetricA).time_grain = "daily"
        ∨ (weeklyUnionRow wkMetricA).time_grain = "monthly") →
      (weeklyUnionRow wkMetricA).documents_per_user.isSome
        ∧ (weeklyUnionRow wkMetricA).events_per_user.isSome)
  ∧ ((weeklyUnionRow wkMetricA).time_grain = "weekly" →
      (weeklyUnionRow wkMetricA).documents_per_user = none
        ∧ (weeklyUnionRow wkMetricA).events_per_user = none
        ∧ (weeklyUnionRow wkMetricA).user_segment = none
        ∧ (weeklyUnionRow wkMetricA).satisfaction_performance = none
        ∧ (weeklyUnionRow wkMetricA).volume_performance = none
        ∧ (weeklyUnionRow wkMetricA).documents_per_user ≠ some 0
        ∧ (weeklyUnionRow wkMetricA).events_per_user ≠ some 0) :=
  claim_C4_union_schema [perfRowA] (weeklyUnionRow wkMetricA)
    (by rw [combinedMetrics_perfRowA]; simp)

/-- C9 counterexample: the engagement simulation mutates the loaded
events frame in place — line 28 adds a derived `month` column to it — so
the base collections are not left unchanged by every operation. -/
theorem claim_C9_counterexample :
    engagementPrelude (loadedState [] [] []) ≠ loadedState [] [] [] := by decide

/-- C9 as amended: the operations leave the row data of the three base
collections unchanged and produce derived tables as new outputs, but the
engagement prelude does mutate its freshly loaded frames in place:
events gains the derived `month` column, and the users date column is
reassigned (value-identically, the loader having already parsed it);
the mutation does not propagate across operations because every
operation reloads the inputs. -/
theorem claim_C9_frame_mutation (users : List User) (firms : List Firm)
    (events : List Event) :
    (engagementPrelude (loadedState users firms events)).users = users
  ∧ (engagementPrelude (loadedState users firms events)).firms = firms
  ∧ (engagementPrelude (loadedState users firms events)).events = events
  ∧ (engagementPrelude (loadedState users firms events)).users_cols
      = (loadedState users firms events).users_cols
  ∧ (engagementPrelude (loadedState users firms events)).firms_cols
      = (loadedState users firms events).firms_cols
  ∧ (engagementPrelude (loadedState users firms events)).events_cols
      = (loadedState users firms events).events_cols ++ ["month"] := by
  refine ⟨rfl, rfl, rfl, ?_, rfl, ?_⟩ <;>
    simp [engagementPrelude, loadedState, assignColumn]

end Harvey
